import Mathlib

/-!
Verification development for the 4dBlocks presentation layer.

This file gives a shallow embedding of the scene-batching renderer and
surface/frame lifecycle of the repository:
  crates/game/src/ui.rs          (Ui: layer accumulator, GPU buffer pool, render)
  crates/game/src/ui/texture.rs  (Texture: reference-shared, compared by identity)
  crates/game/src/main.rs        (App: surface lifecycle, frame clock)

Modelling conventions:
- `f32` scalars are embedded as `Rat`.  The accumulator and lifecycle code
  performs no floating-point arithmetic on primitive fields (it only copies
  them into GPU records), so the carrier is faithful for every value that
  appears in a claim.
- `Texture` is a reference-shared handle whose derived `PartialEq` compares
  the underlying wgpu resource identities; cloning shares the identity.  It
  is embedded as a `Nat` identity token.
- GPU-side objects (`wgpu::Buffer`, `wgpu::BindGroup`) are embedded by the
  data the host code observes: a creation identity and a byte size for
  buffers, and the identity of the referenced buffer for bind groups.
  Fresh identities are threaded explicitly through a `Nat` counter that
  stands for the device's resource-id allocator.
-/

/-- Embeds `wgpu::Buffer` as observed by the host: `id` is the resource
identity (two calls of `create_buffer` give different ids), `size` is the
byte size reported by `Buffer::size()`. -/
structure Buffer where
  id : Nat
  size : Nat
deriving DecidableEq

/-- Embeds `wgpu::BindGroup` by what it references: the identity of the
buffer bound at binding 0 (ui.rs `lines_bind_group` / `quads_bind_group` /
`ellipses_bind_group` each bind exactly their kind's buffer). -/
structure BindGroup where
  buffer : Nat
deriving DecidableEq

/-- ui.rs `TextureInfo`: the texture handle plus the uv rectangle. -/
structure TextureInfo where
  texture : Nat
  uv_offset : Rat × Rat
  uv_size : Rat × Rat
deriving DecidableEq

/-- ui.rs `Line`. -/
structure Line where
  a : Rat × Rat
  b : Rat × Rat
  color : Rat × Rat × Rat
  width : Rat
deriving DecidableEq

/-- ui.rs `Quad`. -/
structure Quad where
  position : Rat × Rat
  size : Rat × Rat
  color : Rat × Rat × Rat × Rat
deriving DecidableEq

/-- ui.rs `Ellipse`. -/
structure Ellipse where
  position : Rat × Rat
  size : Rat × Rat
  color : Rat × Rat × Rat × Rat
deriving DecidableEq

/-- ui.rs `GpuLine` (`repr(C)`: `a: [f32;2], b: [f32;2], color: [f32;3], width: f32`). -/
structure GpuLine where
  a : Rat × Rat
  b : Rat × Rat
  color : Rat × Rat × Rat
  width : Rat
deriving DecidableEq

/-- ui.rs `GpuQuad` (`repr(C)`: position, size, color, uv_offset, uv_size). -/
structure GpuQuad where
  position : Rat × Rat
  size : Rat × Rat
  color : Rat × Rat × Rat × Rat
  uv_offset : Rat × Rat
  uv_size : Rat × Rat
deriving DecidableEq

/-- ui.rs `GpuEllipse` (same field layout as `GpuQuad`). -/
structure GpuEllipse where
  position : Rat × Rat
  size : Rat × Rat
  color : Rat × Rat × Rat × Rat
  uv_offset : Rat × Rat
  uv_size : Rat × Rat
deriving DecidableEq

/-- `size_of::<GpuLine>()`: repr(C) gives 8 + 8 + 12 + 4 = 32 bytes. -/
def GpuLineSize : Nat := 32

/-- `size_of::<GpuQuad>()`: repr(C) gives 8 + 8 + 16 + 8 + 8 = 48 bytes. -/
def GpuQuadSize : Nat := 48

/-- `size_of::<GpuEllipse>()`: repr(C) gives 8 + 8 + 16 + 8 + 8 = 48 bytes. -/
def GpuEllipseSize : Nat := 48

/-- ui.rs `enum Layer`: a homogeneous run of GPU records, with the shared
texture handle for the textured kinds. -/
inductive Layer where
  | Lines (gpu_lines : List GpuLine)
  | Quads (gpu_quads : List GpuQuad) (texture : Nat)
  | Ellipses (gpu_ellipses : List GpuEllipse) (texture : Nat)
deriving DecidableEq

/-- ui.rs `struct Ui`.  Pipelines and bind-group layouts are immutable
identity tokens; `layers` is the accumulated layer list. -/
structure Ui where
  white_pixel_texture : Nat
  camera_buffer : Buffer
  camera_bind_group : BindGroup
  lines_buffer : Buffer
  lines_bind_group_layout : Nat
  lines_bind_group : BindGroup
  lines_pipeline : Nat
  quads_buffer : Buffer
  quads_bind_group_layout : Nat
  quads_bind_group : BindGroup
  quads_pipeline : Nat
  ellipses_buffer : Buffer
  ellipses_bind_group_layout : Nat
  ellipses_bind_group : BindGroup
  ellipses_pipeline : Nat
  layers : List Layer
deriving DecidableEq

/-- ui.rs `fn lines_buffer(device, length)`: a fresh buffer of
`length.max(1) * size_of::<GpuLine>()` bytes.  (Named `linesBuffer` because
`lines_buffer` is taken by the `Ui` field projection.) -/
def linesBuffer (id : Nat) (length : Nat) : Buffer :=
  { id := id, size := max length 1 * GpuLineSize }

/-- ui.rs `fn quads_buffer(device, length)`. -/
def quadsBuffer (id : Nat) (length : Nat) : Buffer :=
  { id := id, size := max length 1 * GpuQuadSize }

/-- ui.rs `fn ellipses_buffer(device, length)`. -/
def ellipsesBuffer (id : Nat) (length : Nat) : Buffer :=
  { id := id, size := max length 1 * GpuEllipseSize }

/-- ui.rs `Ui::new`: buffers are created with length 0 (so 1-element sized),
each bind group references its kind's buffer, the white-pixel texture is a
fresh 1x1 texture, and `layers` starts empty.  Concrete identity tokens
stand for the device allocations made in `new`. -/
def Ui.new : Ui :=
  { white_pixel_texture := 0
    camera_buffer := { id := 1, size := 16 }
    camera_bind_group := { buffer := 1 }
    lines_buffer := linesBuffer 2 0
    lines_bind_group_layout := 0
    lines_bind_group := { buffer := 2 }
    lines_pipeline := 0
    quads_buffer := quadsBuffer 3 0
    quads_bind_group_layout := 1
    quads_bind_group := { buffer := 3 }
    quads_pipeline := 1
    ellipses_buffer := ellipsesBuffer 4 0
    ellipses_bind_group_layout := 2
    ellipses_bind_group := { buffer := 4 }
    ellipses_pipeline := 2
    layers := [] }

/-- ui.rs `Ui::clear`: `self.layers.clear()`. -/
def Ui.clear (ui : Ui) : Ui :=
  { ui with layers := [] }

/-- The `GpuLine` built by `Ui::push_line` from a `Line` (field-for-field copy). -/
def gpuLineOf (line : Line) : GpuLine :=
  { a := line.a, b := line.b, color := line.color, width := line.width }

/-- The `GpuQuad` built by `Ui::push_quad` from a `Quad` and the resolved
`TextureInfo` (field-for-field copy). -/
def gpuQuadOf (quad : Quad) (ti : TextureInfo) : GpuQuad :=
  { position := quad.position, size := quad.size, color := quad.color,
    uv_offset := ti.uv_offset, uv_size := ti.uv_size }

/-- The `GpuEllipse` built by `Ui::push_ellipse` from an `Ellipse` and the
resolved `TextureInfo`. -/
def gpuEllipseOf (ellipse : Ellipse) (ti : TextureInfo) : GpuEllipse :=
  { position := ellipse.position, size := ellipse.size, color := ellipse.color,
    uv_offset := ti.uv_offset, uv_size := ti.uv_size }

/-- The default `TextureInfo` used by `push_quad`/`push_ellipse` when no
texture is given: the shared white-pixel texture (a clone shares identity),
uv offset (0,0) and uv size (1,1). -/
def defaultTextureInfo (white_pixel_texture : Nat) : TextureInfo :=
  { texture := white_pixel_texture,
    uv_offset := (0, 0),
    uv_size := (1, 1) }

/-- The `last_mut` update of `Ui::push_line` on the layer list: if the last
layer is `Lines`, append to it, otherwise push a new `Lines` layer. -/
def pushLineLayers (gpu_line : GpuLine) : List Layer → List Layer
  | [] => [.Lines [gpu_line]]
  | [.Lines gpu_lines] => [.Lines (gpu_lines ++ [gpu_line])]
  | [.Quads gpu_quads t] => [.Quads gpu_quads t, .Lines [gpu_line]]
  | [.Ellipses gpu_ellipses t] => [.Ellipses gpu_ellipses t, .Lines [gpu_line]]
  | l :: l' :: rest => l :: pushLineLayers gpu_line (l' :: rest)

/-- The `last_mut` update of `Ui::push_quad` on the layer list: if the last
layer is `Quads` with an equal (identity-compared) texture, append to it,
otherwise push a new `Quads` layer. -/
def pushQuadLayers (gpu_quad : GpuQuad) (texture : Nat) : List Layer → List Layer
  | [] => [.Quads [gpu_quad] texture]
  | [.Quads gpu_quads last_texture] =>
      if texture = last_texture then
        [.Quads (gpu_quads ++ [gpu_quad]) last_texture]
      else
        [.Quads gpu_quads last_texture, .Quads [gpu_quad] texture]
  | [.Lines gpu_lines] => [.Lines gpu_lines, .Quads [gpu_quad] texture]
  | [.Ellipses gpu_ellipses t] => [.Ellipses gpu_ellipses t, .Quads [gpu_quad] texture]
  | l :: l' :: rest => l :: pushQuadLayers gpu_quad texture (l' :: rest)

/-- The `last_mut` update of `Ui::push_ellipse` on the layer list. -/
def pushEllipseLayers (gpu_ellipse : GpuEllipse) (texture : Nat) : List Layer → List Layer
  | [] => [.Ellipses [gpu_ellipse] texture]
  | [.Ellipses gpu_ellipses last_texture] =>
      if texture = last_texture then
        [.Ellipses (gpu_ellipses ++ [gpu_ellipse]) last_texture]
      else
        [.Ellipses gpu_ellipses last_texture, .Ellipses [gpu_ellipse] texture]
  | [.Lines gpu_lines] => [.Lines gpu_lines, .Ellipses [gpu_ellipse] texture]
  | [.Quads gpu_quads t] => [.Quads gpu_quads t, .Ellipses [gpu_ellipse] texture]
  | l :: l' :: rest => l :: pushEllipseLayers gpu_ellipse texture (l' :: rest)

/-- ui.rs `Ui::push_line`. -/
def Ui.push_line (ui : Ui) (line : Line) : Ui :=
  { ui with layers := pushLineLayers (gpuLineOf line) ui.layers }

/-- ui.rs `Ui::push_quad`: resolve the optional texture info (defaulting to
the shared white-pixel texture with uv (0,0)/(1,1)), build the `GpuQuad`,
and append against the last layer. -/
def Ui.push_quad (ui : Ui) (quad : Quad) (texture : Option TextureInfo) : Ui :=
  let ti := texture.getD (defaultTextureInfo ui.white_pixel_texture)
  { ui with layers := pushQuadLayers (gpuQuadOf quad ti) ti.texture ui.layers }

/-- ui.rs `Ui::push_ellipse`. -/
def Ui.push_ellipse (ui : Ui) (ellipse : Ellipse) (texture : Option TextureInfo) : Ui :=
  let ti := texture.getD (defaultTextureInfo ui.white_pixel_texture)
  { ui with layers := pushEllipseLayers (gpuEllipseOf ellipse ti) ti.texture ui.layers }

/-- One draw call as issued by application code: the argument of one
`push_line`/`push_quad`/`push_ellipse` call. -/
inductive PushCall where
  | line (l : Line)
  | quad (q : Quad) (texture : Option TextureInfo)
  | ellipse (e : Ellipse) (texture : Option TextureInfo)
deriving DecidableEq

/-- Apply one push call to a `Ui`. -/
def Ui.applyPush (ui : Ui) : PushCall → Ui
  | .line l => ui.push_line l
  | .quad q t => ui.push_quad q t
  | .ellipse e t => ui.push_ellipse e t

/-- Apply a sequence of push calls in order. -/
def Ui.applyPushes (ui : Ui) (calls : List PushCall) : Ui :=
  calls.foldl Ui.applyPush ui

/-- One stored primitive record, tagged with the texture its layer carries
(for the textured kinds). -/
inductive Prim where
  | line (g : GpuLine)
  | quad (g : GpuQuad) (texture : Nat)
  | ellipse (g : GpuEllipse) (texture : Nat)
deriving DecidableEq

/-- The primitive records a layer stores, in order. -/
def Layer.prims : Layer → List Prim
  | .Lines gpu_lines => gpu_lines.map Prim.line
  | .Quads gpu_quads t => gpu_quads.map (Prim.quad · t)
  | .Ellipses gpu_ellipses t => gpu_ellipses.map (Prim.ellipse · t)

/-- Concatenate all layers' primitives in layer order. -/
def flattenLayers : List Layer → List Prim
  | [] => []
  | l :: rest => l.prims ++ flattenLayers rest

/-- The stored record a push call produces, given the white-pixel texture
identity used for defaulting. -/
def PushCall.prim (white_pixel_texture : Nat) : PushCall → Prim
  | .line l => .line (gpuLineOf l)
  | .quad q t =>
      let ti := t.getD (defaultTextureInfo white_pixel_texture)
      .quad (gpuQuadOf q ti) ti.texture
  | .ellipse e t =>
      let ti := t.getD (defaultTextureInfo white_pixel_texture)
      .ellipse (gpuEllipseOf e ti) ti.texture

/-- The `required_lines_count` sum of `Ui::render` (ui.rs lines 304-319). -/
def linesCount : List Layer → Nat
  | [] => 0
  | .Lines gpu_lines :: rest => gpu_lines.length + linesCount rest
  | .Quads _ _ :: rest => linesCount rest
  | .Ellipses _ _ :: rest => linesCount rest

/-- The `required_quads_count` sum of `Ui::render`. -/
def quadsCount : List Layer → Nat
  | [] => 0
  | .Quads gpu_quads _ :: rest => gpu_quads.length + quadsCount rest
  | .Lines _ :: rest => quadsCount rest
  | .Ellipses _ _ :: rest => quadsCount rest

/-- The `required_ellipses_count` sum of `Ui::render`. -/
def ellipsesCount : List Layer → Nat
  | [] => 0
  | .Ellipses gpu_ellipses _ :: rest => gpu_ellipses.length + ellipsesCount rest
  | .Lines _ :: rest => ellipsesCount rest
  | .Quads _ _ :: rest => ellipsesCount rest

/-- The lines branch of the capacity step of `Ui::render` (ui.rs lines
321-325): if the required byte size exceeds the current buffer size,
allocate a fresh exactly-sized buffer and rebuild the bind group against
it; otherwise leave both untouched.  `fresh` is the next device resource
identity. -/
def stepLinesBuffer (ui : Ui) (fresh : Nat) : Ui × Nat :=
  if linesCount ui.layers * GpuLineSize > ui.lines_buffer.size then
    let buf := linesBuffer fresh (linesCount ui.layers)
    ({ ui with lines_buffer := buf, lines_bind_group := { buffer := buf.id } }, fresh + 1)
  else
    (ui, fresh)

/-- The quads branch of the capacity step of `Ui::render` (ui.rs lines 326-330). -/
def stepQuadsBuffer (ui : Ui) (fresh : Nat) : Ui × Nat :=
  if quadsCount ui.layers * GpuQuadSize > ui.quads_buffer.size then
    let buf := quadsBuffer fresh (quadsCount ui.layers)
    ({ ui with quads_buffer := buf, quads_bind_group := { buffer := buf.id } }, fresh + 1)
  else
    (ui, fresh)

/-- The ellipses branch of the capacity step of `Ui::render` (ui.rs lines 331-338). -/
def stepEllipsesBuffer (ui : Ui) (fresh : Nat) : Ui × Nat :=
  if ellipsesCount ui.layers * GpuEllipseSize > ui.ellipses_buffer.size then
    let buf := ellipsesBuffer fresh (ellipsesCount ui.layers)
    ({ ui with ellipses_buffer := buf, ellipses_bind_group := { buffer := buf.id } }, fresh + 1)
  else
    (ui, fresh)

/-- The full capacity step of `Ui::render` (ui.rs lines 304-338): the three
per-kind checks run in sequence, before any buffer write or draw of the
same frame. -/
def Ui.capacityStep (ui : Ui) (fresh : Nat) : Ui × Nat :=
  let (ui1, fresh1) := stepLinesBuffer ui fresh
  let (ui2, fresh2) := stepQuadsBuffer ui1 fresh1
  stepEllipsesBuffer ui2 fresh2

/-- The kind tag of a `GpuLayer`, standing for the pipeline and storage
bind group selected for the draw. -/
inductive GpuKind where
  | lines
  | quads
  | ellipses
deriving DecidableEq

/-- The per-layer draw record built by `Ui::render` (ui.rs lines 340-444):
pipeline/bind-group selection by kind, optional texture, the fixed
4-vertex count, and the `[instance_start, instance_end)` range. -/
structure GpuLayer where
  kind : GpuKind
  texture : Option Nat
  vertex_count : Nat
  instance_start : Nat
  instance_end : Nat
deriving DecidableEq

/-- `u32::MAX + 1`: `usize::try_into::<u32>()` succeeds exactly for values
below this bound. -/
def U32Limit : Nat := 4294967296

/-- The layer-to-`GpuLayer` mapping of `Ui::render` (ui.rs lines 349-444)
with its running per-kind offsets.  `none` models the `expect` panic fired
when a layer's cumulative instance end does not fit in `u32`;
`instance_start` is an `as` cast and so reduces modulo 2^32. -/
def buildGpuLayers : List Layer → Nat → Nat → Nat → Option (List GpuLayer)
  | [], _, _, _ => some []
  | .Lines gpu_lines :: rest, lines_so_far, quads_so_far, ellipses_so_far =>
      if lines_so_far + gpu_lines.length < U32Limit then
        (buildGpuLayers rest (lines_so_far + gpu_lines.length) quads_so_far
            ellipses_so_far).map
          (fun tail =>
            { kind := .lines, texture := none, vertex_count := 4,
              instance_start := lines_so_far % U32Limit,
              instance_end := lines_so_far + gpu_lines.length } :: tail)
      else
        none
  | .Quads gpu_quads texture :: rest, lines_so_far, quads_so_far, ellipses_so_far =>
      if quads_so_far + gpu_quads.length < U32Limit then
        (buildGpuLayers rest lines_so_far (quads_so_far + gpu_quads.length)
            ellipses_so_far).map
          (fun tail =>
            { kind := .quads, texture := some texture, vertex_count := 4,
              instance_start := quads_so_far % U32Limit,
              instance_end := quads_so_far + gpu_quads.length } :: tail)
      else
        none
  | .Ellipses gpu_ellipses texture :: rest, lines_so_far, quads_so_far, ellipses_so_far =>
      if ellipses_so_far + gpu_ellipses.length < U32Limit then
        (buildGpuLayers rest lines_so_far quads_so_far
            (ellipses_so_far + gpu_ellipses.length)).map
          (fun tail =>
            { kind := .ellipses, texture := some texture, vertex_count := 4,
              instance_start := ellipses_so_far % U32Limit,
              instance_end := ellipses_so_far + gpu_ellipses.length } :: tail)
      else
        none

/-- main.rs `wgpu::SurfaceConfiguration`, restricted to the fields the
lifecycle logic reads and writes. -/
structure SurfaceConfiguration where
  width : Nat
  height : Nat
deriving DecidableEq

/-- main.rs `WindowState`: the window (observed through the physical size
`inner_size()` reports when queried) and the surface configuration. -/
structure WindowState where
  inner_size : Nat × Nat
  surface_config : SurfaceConfiguration
deriving DecidableEq

/-- main.rs `App`, restricted to the fields the lifecycle logic touches:
the frame clock (`last_time`, `dt`, in abstract time units), the size last
notified to `State::surface_resized`, and the optional window state. -/
structure App where
  last_time : Option Nat
  dt : Nat
  state_surface_size : Nat × Nat
  window_state : Option WindowState
deriving DecidableEq

/-- The host-observable GPU/surface effects of one `App::render` call. -/
structure RenderEffects where
  acquired : Bool
  reconfigures : List SurfaceConfiguration
  resized : List (Nat × Nat)
  submissions : Nat
  presented : Bool
deriving DecidableEq

/-- No effects: nothing acquired, configured, notified, submitted or presented. -/
def noEffects : RenderEffects :=
  { acquired := false, reconfigures := [], resized := [], submissions := 0,
    presented := false }

/-- The result of `surface.get_current_texture()` in `App::render`. -/
inductive AcquireResult where
  | success (suboptimal : Bool)
  | timeout
  | outdated
  | lost
  | otherError
deriving DecidableEq

/-- Outcome of one `App::render` call: either the process panics, or the
call returns with an updated `App` and an effect record. -/
inductive RenderOutcome where
  | panic
  | ok (app : App) (effects : RenderEffects)
deriving DecidableEq

/-- main.rs `App::recreate_surface`: returns early without configuring when
either configured dimension is zero, otherwise issues exactly one
`surface.configure` with the given configuration.  Modelled as the list of
configure calls it performs. -/
def App.recreate_surface (config : SurfaceConfiguration) : List SurfaceConfiguration :=
  if config.width = 0 ∨ config.height = 0 then [] else [config]

/-- main.rs `App::render` (lines 186-260).  The acquire result is supplied
as a parameter standing for what `surface.get_current_texture()` returns;
`effects.acquired` records whether that call was reached at all. -/
def App.render (app : App) (acquire : AcquireResult) : RenderOutcome :=
  match app.window_state with
  | none => .ok app noEffects
  | some ws =>
    if ws.surface_config.width = 0 ∨ ws.surface_config.height = 0 then
      .ok app noEffects
    else
      match acquire with
      | .success suboptimal =>
          .ok app
            { acquired := true,
              reconfigures :=
                if suboptimal then App.recreate_surface ws.surface_config else [],
              resized := [],
              submissions := 1,
              presented := true }
      | .timeout => .ok app { noEffects with acquired := true }
      | .outdated =>
          let w := ws.inner_size.1
          let h := ws.inner_size.2
          let config := { ws.surface_config with width := w, height := h }
          .ok
            { app with
              window_state := some { ws with surface_config := config },
              state_surface_size := (w, h) }
            { acquired := true,
              reconfigures := App.recreate_surface config,
              resized := [(w, h)],
              submissions := 0,
              presented := false }
      | .lost =>
          .ok app
            { noEffects with
              acquired := true,
              reconfigures := App.recreate_surface ws.surface_config }
      | .otherError => .panic

/-- main.rs `App::suspended` (ApplicationHandler): reset the frame clock's
last instant and drop the window state. -/
def App.suspended (app : App) : App :=
  { app with last_time := none, window_state := none }

/-- main.rs `App::new_events`: `dt = time - last_time.unwrap_or(time)`,
then `last_time = Some(time)`. -/
def App.new_events (app : App) (time : Nat) : App :=
  { app with dt := time - app.last_time.getD time, last_time := some time }

/-- Modelled from the spec's merge rule for quads, stated over the last
layer: used to compare the recursive `pushQuadLayers` against the words of
the specification. -/
def quadMergeSpec (layers : List Layer) (gpu_quad : GpuQuad) (texture : Nat) : List Layer :=
  match layers.getLast? with
  | some (.Quads gpu_quads last_texture) =>
      if texture = last_texture then
        layers.dropLast ++ [.Quads (gpu_quads ++ [gpu_quad]) last_texture]
      else
        layers ++ [.Quads [gpu_quad] texture]
  | _ => layers ++ [.Quads [gpu_quad] texture]

/-- Modelled from the spec's merge rule for ellipses, stated over the last
layer. -/
def ellipseMergeSpec (layers : List Layer) (gpu_ellipse : GpuEllipse) (texture : Nat) :
    List Layer :=
  match layers.getLast? with
  | some (.Ellipses gpu_ellipses last_texture) =>
      if texture = last_texture then
        layers.dropLast ++ [.Ellipses (gpu_ellipses ++ [gpu_ellipse]) last_texture]
      else
        layers ++ [.Ellipses [gpu_ellipse] texture]
  | _ => layers ++ [.Ellipses [gpu_ellipse] texture]

theorem quadMergeSpec_cons_cons (l l' : Layer) (rest : List Layer) (g : GpuQuad)
    (tex : Nat) :
    quadMergeSpec (l :: l' :: rest) g tex = l :: quadMergeSpec (l' :: rest) g tex := by
  simp only [quadMergeSpec, List.getLast?_cons_cons, List.dropLast_cons₂]
  cases h : (l' :: rest).getLast? with
  | none => simp
  | some last => cases last <;> simp [apply_ite (List.cons l)]

theorem ellipseMergeSpec_cons_cons (l l' : Layer) (rest : List Layer) (g : GpuEllipse)
    (tex : Nat) :
    ellipseMergeSpec (l :: l' :: rest) g tex = l :: ellipseMergeSpec (l' :: rest) g tex := by
  simp only [ellipseMergeSpec, List.getLast?_cons_cons, List.dropLast_cons₂]
  cases h : (l' :: rest).getLast? with
  | none => simp
  | some last => cases last <;> simp [apply_ite (List.cons l)]

theorem pushQuadLayers_eq_quadMergeSpec (g : GpuQuad) (tex : Nat) :
    (ls : List Layer) → pushQuadLayers g tex ls = quadMergeSpec ls g tex
  | [] => by simp [pushQuadLayers, quadMergeSpec]
  | [.Lines gs] => by simp [pushQuadLayers, quadMergeSpec]
  | [.Quads gs t] => by simp [pushQuadLayers, quadMergeSpec]
  | [.Ellipses gs t] => by simp [pushQuadLayers, quadMergeSpec]
  | l :: l' :: rest => by
      have ih := pushQuadLayers_eq_quadMergeSpec g tex (l' :: rest)
      rw [quadMergeSpec_cons_cons, ← ih]
      cases l <;> rfl

theorem pushEllipseLayers_eq_ellipseMergeSpec (g : GpuEllipse) (tex : Nat) :
    (ls : List Layer) → pushEllipseLayers g tex ls = ellipseMergeSpec ls g tex
  | [] => by simp [pushEllipseLayers, ellipseMergeSpec]
  | [.Lines gs] => by simp [pushEllipseLayers, ellipseMergeSpec]
  | [.Quads gs t] => by simp [pushEllipseLayers, ellipseMergeSpec]
  | [.Ellipses gs t] => by simp [pushEllipseLayers, ellipseMergeSpec]
  | l :: l' :: rest => by
      have ih := pushEllipseLayers_eq_ellipseMergeSpec g tex (l' :: rest)
      rw [ellipseMergeSpec_cons_cons, ← ih]
      cases l <;> rfl

theorem flattenLayers_pushLineLayers (g : GpuLine) :
    (ls : List Layer) →
      flattenLayers (pushLineLayers g ls) = flattenLayers ls ++ [Prim.line g]
  | [] => by simp [pushLineLayers, flattenLayers, Layer.prims]
  | [.Lines gs] => by simp [pushLineLayers, flattenLayers, Layer.prims]
  | [.Quads gs t] => by simp [pushLineLayers, flattenLayers, Layer.prims]
  | [.Ellipses gs t] => by simp [pushLineLayers, flattenLayers, Layer.prims]
  | l :: l' :: rest => by
      have ih := flattenLayers_pushLineLayers g (l' :: rest)
      have h1 : pushLineLayers g (l :: l' :: rest) = l :: pushLineLayers g (l' :: rest) := by
        cases l <;> rfl
      rw [h1]
      show l.prims ++ flattenLayers (pushLineLayers g (l' :: rest)) = _
      rw [ih]
      show _ = (l.prims ++ flattenLayers (l' :: rest)) ++ [Prim.line g]
      rw [List.append_assoc]

theorem flattenLayers_pushQuadLayers (g : GpuQuad) (tex : Nat) :
    (ls : List Layer) →
      flattenLayers (pushQuadLayers g tex ls) = flattenLayers ls ++ [Prim.quad g tex]
  | [] => by simp [pushQuadLayers, flattenLayers, Layer.prims]
  | [.Lines gs] => by simp [pushQuadLayers, flattenLayers, Layer.prims]
  | [.Quads gs t] => by
      by_cases h : tex = t <;>
        simp [pushQuadLayers, flattenLayers, Layer.prims, h]
  | [.Ellipses gs t] => by simp [pushQuadLayers, flattenLayers, Layer.prims]
  | l :: l' :: rest => by
      have ih := flattenLayers_pushQuadLayers g tex (l' :: rest)
      have h1 : pushQuadLayers g tex (l :: l' :: rest)
          = l :: pushQuadLayers g tex (l' :: rest) := by
        cases l <;> rfl
      rw [h1]
      show l.prims ++ flattenLayers (pushQuadLayers g tex (l' :: rest)) = _
      rw [ih]
      show _ = (l.prims ++ flattenLayers (l' :: rest)) ++ [Prim.quad g tex]
      rw [List.append_assoc]

theorem flattenLayers_pushEllipseLayers (g : GpuEllipse) (tex : Nat) :
    (ls : List Layer) →
      flattenLayers (pushEllipseLayers g tex ls) = flattenLayers ls ++ [Prim.ellipse g tex]
  | [] => by simp [pushEllipseLayers, flattenLayers, Layer.prims]
  | [.Lines gs] => by simp [pushEllipseLayers, flattenLayers, Layer.prims]
  | [.Quads gs t] => by simp [pushEllipseLayers, flattenLayers, Layer.prims]
  | [.Ellipses gs t] => by
      by_cases h : tex = t <;>
        simp [pushEllipseLayers, flattenLayers, Layer.prims, h]
  | l :: l' :: rest => by
      have ih := flattenLayers_pushEllipseLayers g tex (l' :: rest)
      have h1 : pushEllipseLayers g tex (l :: l' :: rest)
          = l :: pushEllipseLayers g tex (l' :: rest) := by
        cases l <;> rfl
      rw [h1]
      show l.prims ++ flattenLayers (pushEllipseLayers g tex (l' :: rest)) = _
      rw [ih]
      show _ = (l.prims ++ flattenLayers (l' :: rest)) ++ [Prim.ellipse g tex]
      rw [List.append_assoc]

theorem flattenLayers_applyPush (ui : Ui) (p : PushCall) :
    flattenLayers (ui.applyPush p).layers
        = flattenLayers ui.layers ++ [p.prim ui.white_pixel_texture] ∧
      (ui.applyPush p).white_pixel_texture = ui.white_pixel_texture := by
  cases p <;>
    simp [Ui.applyPush, Ui.push_line, Ui.push_quad, Ui.push_ellipse, PushCall.prim,
      flattenLayers_pushLineLayers, flattenLayers_pushQuadLayers,
      flattenLayers_pushEllipseLayers]

theorem flattenLayers_applyPushes (calls : List PushCall) :
    ∀ ui : Ui,
      flattenLayers (ui.applyPushes calls).layers
        = flattenLayers ui.layers ++ calls.map (PushCall.prim ui.white_pixel_texture) := by
  induction calls with
  | nil => intro ui; simp [Ui.applyPushes]
  | cons p rest ih =>
      intro ui
      have hstep := flattenLayers_applyPush ui p
      have hrec := ih (ui.applyPush p)
      show flattenLayers ((ui.applyPush p).applyPushes rest).layers = _
      rw [hrec, hstep.1, hstep.2, List.map_cons, List.append_assoc]
      rfl

/-- C1: merge locality of the layer accumulator.  Pushing a quad or an
ellipse is decided against the last layer only: the primitive is appended
to the last layer exactly when that layer exists, has the same kind, and
stores an identity-equal texture (the `getLast?`-based merge functions
`quadMergeSpec`/`ellipseMergeSpec` transcribe the spec's rule); and the
scenario P1 (quad, texture A), P2 (quad, texture A), P3 (ellipse),
P4 (quad, texture A) yields exactly the 3 layers [P1,P2], [P3], [P4],
with P4 not merged backward into the first layer. -/
theorem merge_locality_last_layer_only :
    (∀ (ls : List Layer) (g : GpuQuad) (tex : Nat),
        pushQuadLayers g tex ls = quadMergeSpec ls g tex) ∧
    (∀ (ls : List Layer) (g : GpuEllipse) (tex : Nat),
        pushEllipseLayers g tex ls = ellipseMergeSpec ls g tex) ∧
    (∀ (ui : Ui) (q1 q2 q4 : Quad) (e3 : Ellipse) (tiA tiE : TextureInfo),
        ((((ui.clear.push_quad q1 (some tiA)).push_quad q2 (some tiA)).push_ellipse e3
              (some tiE)).push_quad q4 (some tiA)).layers
          = [Layer.Quads [gpuQuadOf q1 tiA, gpuQuadOf q2 tiA] tiA.texture,
             Layer.Ellipses [gpuEllipseOf e3 tiE] tiE.texture,
             Layer.Quads [gpuQuadOf q4 tiA] tiA.texture]) := by
  refine ⟨fun ls g tex => pushQuadLayers_eq_quadMergeSpec g tex ls,
    fun ls g tex => pushEllipseLayers_eq_ellipseMergeSpec g tex ls, ?_⟩
  intro ui q1 q2 q4 e3 tiA tiE
  simp [Ui.clear, Ui.push_quad, Ui.push_ellipse, pushQuadLayers, pushEllipseLayers]

/-- C2: order preservation.  For every sequence of push calls after a
`clear()`, concatenating the primitives of all layers in layer order
reproduces the original push order exactly. -/
theorem order_preservation (ui : Ui) (calls : List PushCall) :
    flattenLayers ((ui.clear).applyPushes calls).layers
      = calls.map (PushCall.prim ui.white_pixel_texture) := by
  have h := flattenLayers_applyPushes calls ui.clear
  simpa [Ui.clear, flattenLayers] using h

/-- C7: untextured `push_quad`/`push_ellipse` behave exactly as if called
with the shared white-pixel texture, uv offset (0,0) and uv size (1,1);
and pushing two untextured quads in a row after a clear yields exactly one
layer holding both instances in push order, both against the default white
texture. -/
theorem default_white_texture_for_untextured :
    (∀ white_pixel_texture : Nat,
        defaultTextureInfo white_pixel_texture
          = { texture := white_pixel_texture, uv_offset := (0, 0), uv_size := (1, 1) }) ∧
    (∀ (ui : Ui) (q : Quad),
        ui.push_quad q none
          = ui.push_quad q (some (defaultTextureInfo ui.white_pixel_texture))) ∧
    (∀ (ui : Ui) (e : Ellipse),
        ui.push_ellipse e none
          = ui.push_ellipse e (some (defaultTextureInfo ui.white_pixel_texture))) ∧
    (∀ (ui : Ui) (q1 q2 : Quad),
        ((ui.clear.push_quad q1 none).push_quad q2 none).layers
          = [Layer.Quads
                [gpuQuadOf q1 (defaultTextureInfo ui.white_pixel_texture),
                 gpuQuadOf q2 (defaultTextureInfo ui.white_pixel_texture)]
                ui.white_pixel_texture]) := by
  refine ⟨fun _ => rfl, fun ui q => rfl, fun ui e => rfl, ?_⟩
  intro ui q1 q2
  simp [Ui.clear, Ui.push_quad, pushQuadLayers, defaultTextureInfo]

/-- C9: the suspend transition clears the frame clock's last instant and
discards the window state, so the first tick after a suspend computes a
zero delta — suspended time is never included in `dt`. -/
theorem suspend_resets_frame_clock (app : App) (time : Nat) :
    (app.suspended).last_time = none ∧
    (app.suspended).window_state = none ∧
    ((app.suspended).new_events time).dt = 0 := by
  refine ⟨rfl, rfl, ?_⟩
  simp [App.suspended, App.new_events]

/-- C10: `clear()` empties the layer list and changes nothing else: the
white-pixel texture, camera resources, every kind's buffer, bind-group
layout, bind group and pipeline are untouched, so buffer capacity persists
across frames through `clear`. -/
theorem clear_only_empties_layers (ui : Ui) :
    (ui.clear).layers = [] ∧
    (ui.clear).white_pixel_texture = ui.white_pixel_texture ∧
    (ui.clear).camera_buffer = ui.camera_buffer ∧
    (ui.clear).camera_bind_group = ui.camera_bind_group ∧
    (ui.clear).lines_buffer = ui.lines_buffer ∧
    (ui.clear).lines_bind_group_layout = ui.lines_bind_group_layout ∧
    (ui.clear).lines_bind_group = ui.lines_bind_group ∧
    (ui.clear).lines_pipeline = ui.lines_pipeline ∧
    (ui.clear).quads_buffer = ui.quads_buffer ∧
    (ui.clear).quads_bind_group_layout = ui.quads_bind_group_layout ∧
    (ui.clear).quads_bind_group = ui.quads_bind_group ∧
    (ui.clear).quads_pipeline = ui.quads_pipeline ∧
    (ui.clear).ellipses_buffer = ui.ellipses_buffer ∧
    (ui.clear).ellipses_bind_group_layout = ui.ellipses_bind_group_layout ∧
    (ui.clear).ellipses_bind_group = ui.ellipses_bind_group ∧
    (ui.clear).ellipses_pipeline = ui.ellipses_pipeline :=
  ⟨rfl, rfl, rfl, rfl, rfl, rfl, rfl, rfl, rfl, rfl, rfl, rfl, rfl, rfl, rfl, rfl⟩

theorem stepLinesBuffer_eq (ui : Ui) (fresh : Nat) :
    stepLinesBuffer ui fresh
      = if linesCount ui.layers * GpuLineSize > ui.lines_buffer.size then
          ({ ui with lines_buffer := linesBuffer fresh (linesCount ui.layers),
                     lines_bind_group := { buffer := fresh } }, fresh + 1)
        else
          (ui, fresh) := by
  unfold stepLinesBuffer
  split <;> rfl

theorem stepQuadsBuffer_eq (ui : Ui) (fresh : Nat) :
    stepQuadsBuffer ui fresh
      = if quadsCount ui.layers * GpuQuadSize > ui.quads_buffer.size then
          ({ ui with quads_buffer := quadsBuffer fresh (quadsCount ui.layers),
                     quads_bind_group := { buffer := fresh } }, fresh + 1)
        else
          (ui, fresh) := by
  unfold stepQuadsBuffer
  split <;> rfl

theorem stepEllipsesBuffer_eq (ui : Ui) (fresh : Nat) :
    stepEllipsesBuffer ui fresh
      = if ellipsesCount ui.layers * GpuEllipseSize > ui.ellipses_buffer.size then
          ({ ui with ellipses_buffer := ellipsesBuffer fresh (ellipsesCount ui.layers),
                     ellipses_bind_group := { buffer := fresh } }, fresh + 1)
        else
          (ui, fresh) := by
  unfold stepEllipsesBuffer
  split <;> rfl

theorem capacityStep_layers (ui : Ui) (fresh : Nat) :
    ((ui.capacityStep fresh).1).layers = ui.layers := by
  by_cases hL : linesCount ui.layers * GpuLineSize > ui.lines_buffer.size <;>
    by_cases hQ : quadsCount ui.layers * GpuQuadSize > ui.quads_buffer.size <;>
      by_cases hE : ellipsesCount ui.layers * GpuEllipseSize > ui.ellipses_buffer.size <;>
        simp [Ui.capacityStep, stepLinesBuffer_eq, stepQuadsBuffer_eq,
          stepEllipsesBuffer_eq, hL, hQ, hE]

theorem capacityStep_lines (ui : Ui) (fresh : Nat) :
    ((ui.capacityStep fresh).1).lines_buffer
        = (if linesCount ui.layers * GpuLineSize > ui.lines_buffer.size then
            linesBuffer fresh (linesCount ui.layers)
          else ui.lines_buffer) ∧
      ((ui.capacityStep fresh).1).lines_bind_group
        = (if linesCount ui.layers * GpuLineSize > ui.lines_buffer.size then
            { buffer := fresh }
          else ui.lines_bind_group) := by
  by_cases hL : linesCount ui.layers * GpuLineSize > ui.lines_buffer.size <;>
    by_cases hQ : quadsCount ui.layers * GpuQuadSize > ui.quads_buffer.size <;>
      by_cases hE : ellipsesCount ui.layers * GpuEllipseSize > ui.ellipses_buffer.size <;>
        simp [Ui.capacityStep, stepLinesBuffer_eq, stepQuadsBuffer_eq,
          stepEllipsesBuffer_eq, hL, hQ, hE]

theorem capacityStep_quads (ui : Ui) (fresh : Nat) :
    ((ui.capacityStep fresh).1).quads_buffer
        = (if quadsCount ui.layers * GpuQuadSize > ui.quads_buffer.size then
            quadsBuffer (stepLinesBuffer ui fresh).2 (quadsCount ui.layers)
          else ui.quads_buffer) ∧
      ((ui.capacityStep fresh).1).quads_bind_group
        = (if quadsCount ui.layers * GpuQuadSize > ui.quads_buffer.size then
            { buffer := (stepLinesBuffer ui fresh).2 }
          else ui.quads_bind_group) := by
  by_cases hL : linesCount ui.layers * GpuLineSize > ui.lines_buffer.size <;>
    by_cases hQ : quadsCount ui.layers * GpuQuadSize > ui.quads_buffer.size <;>
      by_cases hE : ellipsesCount ui.layers * GpuEllipseSize > ui.ellipses_buffer.size <;>
        simp [Ui.capacityStep, stepLinesBuffer_eq, stepQuadsBuffer_eq,
          stepEllipsesBuffer_eq, hL, hQ, hE]

theorem capacityStep_ellipses (ui : Ui) (fresh : Nat) :
    ((ui.capacityStep fresh).1).ellipses_buffer
        = (if ellipsesCount ui.layers * GpuEllipseSize > ui.ellipses_buffer.size then
            ellipsesBuffer (stepQuadsBuffer (stepLinesBuffer ui fresh).1
              (stepLinesBuffer ui fresh).2).2 (ellipsesCount ui.layers)
          else ui.ellipses_buffer) ∧
      ((ui.capacityStep fresh).1).ellipses_bind_group
        = (if ellipsesCount ui.layers * GpuEllipseSize > ui.ellipses_buffer.size then
            { buffer := (stepQuadsBuffer (stepLinesBuffer ui fresh).1
              (stepLinesBuffer ui fresh).2).2 }
          else ui.ellipses_bind_group) := by
  by_cases hL : linesCount ui.layers * GpuLineSize > ui.lines_buffer.size <;>
    by_cases hQ : quadsCount ui.layers * GpuQuadSize > ui.quads_buffer.size <;>
      by_cases hE : ellipsesCount ui.layers * GpuEllipseSize > ui.ellipses_buffer.size <;>
        simp [Ui.capacityStep, stepLinesBuffer_eq, stepQuadsBuffer_eq,
          stepEllipsesBuffer_eq, hL, hQ, hE]

theorem stepLinesBuffer_fresh_ge (ui : Ui) (fresh : Nat) :
    fresh ≤ (stepLinesBuffer ui fresh).2 := by
  rw [stepLinesBuffer_eq]
  split <;> simp

theorem stepQuadsBuffer_fresh_ge (ui : Ui) (fresh : Nat) :
    fresh ≤ (stepQuadsBuffer ui fresh).2 := by
  rw [stepQuadsBuffer_eq]
  split <;> simp

/-- C3: buffer capacity invariant of the per-frame capacity step of
`Ui::render`.  After the step, each kind's buffer byte size is at least
the kind's total required element count times its record size; each kind's
bind group references the kind's current buffer (so the draws issued later
in the same frame, which bind exactly these bind groups, never see a stale
one); and whenever the required byte size exceeded the prior capacity the
buffer identity changed.  The hypotheses say that `fresh` is a genuinely
fresh device id and that each bind group referenced its buffer on entry
(both established by `Ui::new` and preserved by the step itself). -/
theorem buffer_capacity_invariant (ui : Ui) (fresh : Nat)
    (hl : ui.lines_buffer.id < fresh) (hq : ui.quads_buffer.id < fresh)
    (he : ui.ellipses_buffer.id < fresh)
    (bl : ui.lines_bind_group.buffer = ui.lines_buffer.id)
    (bq : ui.quads_bind_group.buffer = ui.quads_buffer.id)
    (be : ui.ellipses_bind_group.buffer = ui.ellipses_buffer.id) :
    (linesCount ui.layers * GpuLineSize ≤ ((ui.capacityStep fresh).1).lines_buffer.size ∧
     quadsCount ui.layers * GpuQuadSize ≤ ((ui.capacityStep fresh).1).quads_buffer.size ∧
     ellipsesCount ui.layers * GpuEllipseSize
        ≤ ((ui.capacityStep fresh).1).ellipses_buffer.size) ∧
    (((ui.capacityStep fresh).1).lines_bind_group.buffer
        = ((ui.capacityStep fresh).1).lines_buffer.id ∧
     ((ui.capacityStep fresh).1).quads_bind_group.buffer
        = ((ui.capacityStep fresh).1).quads_buffer.id ∧
     ((ui.capacityStep fresh).1).ellipses_bind_group.buffer
        = ((ui.capacityStep fresh).1).ellipses_buffer.id) ∧
    ((linesCount ui.layers * GpuLineSize > ui.lines_buffer.size →
        ((ui.capacityStep fresh).1).lines_buffer.id ≠ ui.lines_buffer.id) ∧
     (quadsCount ui.layers * GpuQuadSize > ui.quads_buffer.size →
        ((ui.capacityStep fresh).1).quads_buffer.id ≠ ui.quads_buffer.id) ∧
     (ellipsesCount ui.layers * GpuEllipseSize > ui.ellipses_buffer.size →
        ((ui.capacityStep fresh).1).ellipses_buffer.id ≠ ui.ellipses_buffer.id)) := by
  have cl := capacityStep_lines ui fresh
  have cq := capacityStep_quads ui fresh
  have ce := capacityStep_ellipses ui fresh
  have hfq : fresh ≤ (stepLinesBuffer ui fresh).2 := stepLinesBuffer_fresh_ge ui fresh
  have hfe : fresh ≤ (stepQuadsBuffer (stepLinesBuffer ui fresh).1
      (stepLinesBuffer ui fresh).2).2 :=
    le_trans hfq (stepQuadsBuffer_fresh_ge _ _)
  refine ⟨⟨?_, ?_, ?_⟩, ⟨?_, ?_, ?_⟩, ⟨?_, ?_, ?_⟩⟩
  · by_cases hL : linesCount ui.layers * GpuLineSize > ui.lines_buffer.size
    · have hmax := Nat.le_max_left (linesCount ui.layers) 1
      simp only [cl.1, if_pos hL, linesBuffer]
      exact Nat.mul_le_mul_right _ hmax
    · simp only [cl.1, if_neg hL]
      exact Nat.not_lt.mp hL
  · by_cases hQ : quadsCount ui.layers * GpuQuadSize > ui.quads_buffer.size
    · have hmax := Nat.le_max_left (quadsCount ui.layers) 1
      simp only [cq.1, if_pos hQ, quadsBuffer]
      exact Nat.mul_le_mul_right _ hmax
    · simp only [cq.1, if_neg hQ]
      exact Nat.not_lt.mp hQ
  · by_cases hE : ellipsesCount ui.layers * GpuEllipseSize > ui.ellipses_buffer.size
    · have hmax := Nat.le_max_left (ellipsesCount ui.layers) 1
      simp only [ce.1, if_pos hE, ellipsesBuffer]
      exact Nat.mul_le_mul_right _ hmax
    · simp only [ce.1, if_neg hE]
      exact Nat.not_lt.mp hE
  · by_cases hL : linesCount ui.layers * GpuLineSize > ui.lines_buffer.size <;>
      simp [cl.1, cl.2, hL, linesBuffer, bl]
  · by_cases hQ : quadsCount ui.layers * GpuQuadSize > ui.quads_buffer.size <;>
      simp [cq.1, cq.2, hQ, quadsBuffer, bq]
  · by_cases hE : ellipsesCount ui.layers * GpuEllipseSize > ui.ellipses_buffer.size <;>
      simp [ce.1, ce.2, hE, ellipsesBuffer, be]
  · intro hL
    simp only [cl.1, if_pos hL, linesBuffer]
    omega
  · intro hQ
    simp only [cq.1, if_pos hQ, quadsBuffer]
    show (stepLinesBuffer ui fresh).2 ≠ ui.quads_buffer.id
    omega
  · intro hE
    simp only [ce.1, if_pos hE, ellipsesBuffer]
    show (stepQuadsBuffer (stepLinesBuffer ui fresh).1 (stepLinesBuffer ui fresh).2).2
        ≠ ui.ellipses_buffer.id
    omega

/-- Witness for C3: the invariant instantiated at the freshly created `Ui`
with device counter 5, reading off that the lines bind group references
the current lines buffer after the step. -/
theorem buffer_capacity_invariant_witness :
    ((Ui.new.capacityStep 5).1).lines_bind_group.buffer
      = ((Ui.new.capacityStep 5).1).lines_buffer.id :=
  (buffer_capacity_invariant Ui.new 5 (by decide) (by decide) (by decide)
    (by decide) (by decide) (by decide)).2.1.1

/-- C4 (amended): exact-fit growth only.  Whenever a kind's buffer is
reallocated it is sized to exactly the required element count (minimum 1
element); but reallocation happens only when the required byte size
exceeds the current capacity — a required count at or below current
capacity leaves the buffer (identity, size and bind group) untouched, so
buffers never shrink. -/
theorem buffer_exact_fit_grow_only (ui : Ui) (fresh : Nat) :
    ((linesCount ui.layers * GpuLineSize > ui.lines_buffer.size →
        ((ui.capacityStep fresh).1).lines_buffer.size
          = max (linesCount ui.layers) 1 * GpuLineSize) ∧
     (¬ linesCount ui.layers * GpuLineSize > ui.lines_buffer.size →
        ((ui.capacityStep fresh).1).lines_buffer = ui.lines_buffer ∧
        ((ui.capacityStep fresh).1).lines_bind_group = ui.lines_bind_group)) ∧
    ((quadsCount ui.layers * GpuQuadSize > ui.quads_buffer.size →
        ((ui.capacityStep fresh).1).quads_buffer.size
          = max (quadsCount ui.layers) 1 * GpuQuadSize) ∧
     (¬ quadsCount ui.layers * GpuQuadSize > ui.quads_buffer.size →
        ((ui.capacityStep fresh).1).quads_buffer = ui.quads_buffer ∧
        ((ui.capacityStep fresh).1).quads_bind_group = ui.quads_bind_group)) ∧
    ((ellipsesCount ui.layers * GpuEllipseSize > ui.ellipses_buffer.size →
        ((ui.capacityStep fresh).1).ellipses_buffer.size
          = max (ellipsesCount ui.layers) 1 * GpuEllipseSize) ∧
     (¬ ellipsesCount ui.layers * GpuEllipseSize > ui.ellipses_buffer.size →
        ((ui.capacityStep fresh).1).ellipses_buffer = ui.ellipses_buffer ∧
        ((ui.capacityStep fresh).1).ellipses_bind_group = ui.ellipses_bind_group)) := by
  have cl := capacityStep_lines ui fresh
  have cq := capacityStep_quads ui fresh
  have ce := capacityStep_ellipses ui fresh
  refine ⟨⟨fun hL => ?_, fun hL => ?_⟩, ⟨fun hQ => ?_, fun hQ => ?_⟩,
    ⟨fun hE => ?_, fun hE => ?_⟩⟩
  · simp [cl.1, hL, linesBuffer]
  · simp [cl.1, cl.2, hL]
  · simp [cq.1, hQ, quadsBuffer]
  · simp [cq.1, cq.2, hQ]
  · simp [ce.1, hE, ellipsesBuffer]
  · simp [ce.1, ce.2, hE]

/-- A sample `GpuLine` record. -/
def glSample : GpuLine :=
  { a := (0, 0), b := (1, 0), color := (0, 0, 0), width := 1 }

/-- A `Ui` whose lines buffer has capacity for 2 records (64 bytes) while
the accumulated frame requires only 1 record (32 bytes). -/
def uiShrink : Ui :=
  { Ui.new with
    lines_buffer := { id := 7, size := 64 },
    lines_bind_group := { buffer := 7 },
    layers := [Layer.Lines [glSample]] }

/-- A `Ui` whose accumulated frame requires 2 line records (64 bytes),
exceeding the 32-byte capacity `Ui::new` allocated. -/
def uiGrow : Ui :=
  { Ui.new with layers := [Layer.Lines [glSample, glSample]] }

/-- Counterexample to C4 as stated: a frame whose required byte size
(1 line = 32 bytes) is below the current capacity (64 bytes) does NOT get
a smaller buffer — the capacity step leaves the buffer entirely unchanged,
so the policy is not exact-fit-with-shrink and a count oscillating around
the capacity does not reallocate every frame. -/
theorem buffer_no_shrink_counterexample :
    linesCount uiShrink.layers * GpuLineSize = 32 ∧
    uiShrink.lines_buffer.size = 64 ∧
    ((uiShrink.capacityStep 100).1).lines_buffer = uiShrink.lines_buffer := by
  refine ⟨rfl, rfl, ?_⟩
  decide

/-- Witness for C4 (amended): at `uiGrow` the required 64 bytes exceed the
32-byte capacity, and the reallocated buffer is sized to exactly
`max required 1` elements. -/
theorem buffer_exact_fit_grow_only_witness :
    ((uiGrow.capacityStep 100).1).lines_buffer.size
      = max (linesCount uiGrow.layers) 1 * GpuLineSize :=
  (buffer_exact_fit_grow_only uiGrow 100).1.1 (by decide)

/-- C5: zero-size no-op.  With a window whose surface configuration has a
zero width or height, `App::render` returns immediately: the app state is
unchanged and no effect happens — no surface image acquired, no
reconfigure, no resize notification, no submission, no present.  This is a
normal return, not an error. -/
theorem zero_size_noop (app : App) (ws : WindowState) (acquire : AcquireResult)
    (hw : app.window_state = some ws)
    (hz : ws.surface_config.width = 0 ∨ ws.surface_config.height = 0) :
    app.render acquire = RenderOutcome.ok app noEffects := by
  unfold App.render
  rw [hw]
  simp [hz]

/-- An app suspended-resumed into a window whose configured height is
non-zero but whose configured width is zero. -/
def appZeroWidth : App :=
  { last_time := none, dt := 0, state_surface_size := (0, 300),
    window_state := some { inner_size := (0, 300),
                           surface_config := { width := 0, height := 300 } } }

/-- Witness for C5 at a concrete zero-width app with a successful acquire
available: render still no-ops. -/
theorem zero_size_noop_witness :
    appZeroWidth.render (AcquireResult.success false) = RenderOutcome.ok appZeroWidth noEffects :=
  zero_size_noop appZeroWidth
    { inner_size := (0, 300), surface_config := { width := 0, height := 300 } }
    (AcquireResult.success false) rfl (Or.inl rfl)

/-- C6 (amended): acquisition-failure mapping for a non-zero configured
size.  `Timeout` skips the frame with no reconfigure; `Lost` performs
exactly one reconfigure with the last-known configuration and skips the
frame; `Outdated` re-queries the window size, reconfigures exactly once
when the re-queried size is non-zero in both dimensions and not at all
otherwise (because `recreate_surface` returns early on a zero dimension),
notifies the scene builder of the re-queried size, and skips the frame;
any other acquire error panics. -/
theorem acquire_failure_mapping (app : App) (ws : WindowState)
    (hw : app.window_state = some ws)
    (hz : ¬ (ws.surface_config.width = 0 ∨ ws.surface_config.height = 0)) :
    (app.render AcquireResult.timeout
        = RenderOutcome.ok app { noEffects with acquired := true }) ∧
    (app.render AcquireResult.lost
        = RenderOutcome.ok app
            { noEffects with acquired := true, reconfigures := [ws.surface_config] }) ∧
    (app.render AcquireResult.outdated
        = RenderOutcome.ok
            { app with
              window_state := some { ws with surface_config :=
                { width := ws.inner_size.1, height := ws.inner_size.2 } },
              state_surface_size := ws.inner_size }
            { acquired := true,
              reconfigures :=
                if ws.inner_size.1 = 0 ∨ ws.inner_size.2 = 0 then []
                else [{ width := ws.inner_size.1, height := ws.inner_size.2 }],
              resized := [ws.inner_size],
              submissions := 0,
              presented := false }) ∧
    (app.render AcquireResult.otherError = RenderOutcome.panic) := by
  refine ⟨?_, ?_, ?_, ?_⟩ <;>
    simp [App.render, hw, hz, App.recreate_surface, noEffects]

/-- An active app with a non-zero 800x600 configured surface. -/
def appActive : App :=
  { last_time := none, dt := 0, state_surface_size := (800, 600),
    window_state := some { inner_size := (1024, 768),
                           surface_config := { width := 800, height := 600 } } }

/-- Witness for C6 (amended): at the concrete active app, a `Lost` acquire
performs exactly one reconfigure with the last-known 800x600 configuration. -/
theorem acquire_failure_mapping_witness :
    appActive.render AcquireResult.lost
      = RenderOutcome.ok appActive
          { noEffects with
            acquired := true,
            reconfigures := [{ width := 800, height := 600 }] } :=
  (acquire_failure_mapping appActive
    { inner_size := (1024, 768), surface_config := { width := 800, height := 600 } }
    rfl (by decide)).2.1

/-- An active app whose configured surface is 800x600 but whose window
currently reports a zero-width inner size of (0, 300). -/
def appOutdatedZero : App :=
  { last_time := none, dt := 0, state_surface_size := (800, 600),
    window_state := some { inner_size := (0, 300),
                           surface_config := { width := 800, height := 600 } } }

/-- Counterexample to C6 as stated: with a non-zero configured size, an
`Outdated` acquire re-queries the window size — here (0, 300) — and
`recreate_surface` then returns without configuring, so zero reconfigures
occur where the claim demands exactly one; the resize notification and the
skipped frame still happen. -/
theorem acquire_outdated_no_reconfigure_counterexample :
    appOutdatedZero.render AcquireResult.outdated
      = RenderOutcome.ok
          { appOutdatedZero with
            state_surface_size := (0, 300),
            window_state := some { inner_size := (0, 300),
                                   surface_config := { width := 0, height := 300 } } }
          { acquired := true, reconfigures := [], resized := [(0, 300)],
            submissions := 0, presented := false } := by
  decide

theorem buildGpuLayers_fits (layers : List Layer) :
    ∀ ls qs es : Nat,
      ls + linesCount layers < U32Limit →
      qs + quadsCount layers < U32Limit →
      es + ellipsesCount layers < U32Limit →
      ∃ gls, buildGpuLayers layers ls qs es = some gls ∧
        ∀ gl ∈ gls, gl.instance_start ≤ gl.instance_end ∧ gl.instance_end < U32Limit := by
  induction layers with
  | nil =>
      intro ls qs es _ _ _
      exact ⟨[], rfl, by simp⟩
  | cons l rest ih =>
      intro ls qs es hl hq he
      cases l with
      | Lines g =>
          simp only [linesCount] at hl
          simp only [quadsCount] at hq
          simp only [ellipsesCount] at he
          have hcond : ls + g.length < U32Limit := by omega
          obtain ⟨gls, hsome, hvalid⟩ :=
            ih (ls + g.length) qs es (by omega) hq he
          refine ⟨{ kind := .lines,
                    texture := none,
                    vertex_count := 4,
                    instance_start := ls % U32Limit,
                    instance_end := ls + g.length } :: gls, ?_, ?_⟩
          · simp [buildGpuLayers, hcond, hsome]
          · intro gl hgl
            rcases List.mem_cons.mp hgl with rfl | hgl
            · exact ⟨le_trans (Nat.mod_le ls U32Limit) (Nat.le_add_right _ _), hcond⟩
            · exact hvalid gl hgl
      | Quads g tex =>
          simp only [linesCount] at hl
          simp only [quadsCount] at hq
          simp only [ellipsesCount] at he
          have hcond : qs + g.length < U32Limit := by omega
          obtain ⟨gls, hsome, hvalid⟩ :=
            ih ls (qs + g.length) es hl (by omega) he
          refine ⟨{ kind := .quads,
                    texture := some tex,
                    vertex_count := 4,
                    instance_start := qs % U32Limit,
                    instance_end := qs + g.length } :: gls, ?_, ?_⟩
          · simp [buildGpuLayers, hcond, hsome]
          · intro gl hgl
            rcases List.mem_cons.mp hgl with rfl | hgl
            · exact ⟨le_trans (Nat.mod_le qs U32Limit) (Nat.le_add_right _ _), hcond⟩
            · exact hvalid gl hgl
      | Ellipses g tex =>
          simp only [linesCount] at hl
          simp only [quadsCount] at hq
          simp only [ellipsesCount] at he
          have hcond : es + g.length < U32Limit := by omega
          obtain ⟨gls, hsome, hvalid⟩ :=
            ih ls qs (es + g.length) hl hq (by omega)
          refine ⟨{ kind := .ellipses,
                    texture := some tex,
                    vertex_count := 4,
                    instance_start := es % U32Limit,
                    instance_end := es + g.length } :: gls, ?_, ?_⟩
          · simp [buildGpuLayers, hcond, hsome]
          · intro gl hgl
            rcases List.mem_cons.mp hgl with rfl | hgl
            · exact ⟨le_trans (Nat.mod_le es U32Limit) (Nat.le_add_right _ _), hcond⟩
            · exact hvalid gl hgl

theorem buildGpuLayers_some_bounds (layers : List Layer) :
    ∀ ls qs es gls, buildGpuLayers layers ls qs es = some gls →
      (linesCount layers = 0 ∨ ls + linesCount layers < U32Limit) ∧
      (quadsCount layers = 0 ∨ qs + quadsCount layers < U32Limit) ∧
      (ellipsesCount layers = 0 ∨ es + ellipsesCount layers < U32Limit) := by
  induction layers with
  | nil =>
      intro ls qs es gls _
      simp [linesCount, quadsCount, ellipsesCount]
  | cons l rest ih =>
      intro ls qs es gls h
      cases l with
      | Lines g =>
          rw [buildGpuLayers] at h
          by_cases hc : ls + g.length < U32Limit
          · rw [if_pos hc] at h
            obtain ⟨gls', hrest, _⟩ := Option.map_eq_some'.mp h
            have hb := ih (ls + g.length) qs es gls' hrest
            refine ⟨?_, ?_, ?_⟩
            · simp only [linesCount]
              rcases hb.1 with h0 | hlt <;> omega
            · simpa only [quadsCount] using hb.2.1
            · simpa only [ellipsesCount] using hb.2.2
          · rw [if_neg hc] at h
            exact absurd h (by simp)
      | Quads g tex =>
          rw [buildGpuLayers] at h
          by_cases hc : qs + g.length < U32Limit
          · rw [if_pos hc] at h
            obtain ⟨gls', hrest, _⟩ := Option.map_eq_some'.mp h
            have hb := ih ls (qs + g.length) es gls' hrest
            refine ⟨?_, ?_, ?_⟩
            · simpa only [linesCount] using hb.1
            · simp only [quadsCount]
              rcases hb.2.1 with h0 | hlt <;> omega
            · simpa only [ellipsesCount] using hb.2.2
          · rw [if_neg hc] at h
            exact absurd h (by simp)
      | Ellipses g tex =>
          rw [buildGpuLayers] at h
          by_cases hc : es + g.length < U32Limit
          · rw [if_pos hc] at h
            obtain ⟨gls', hrest, _⟩ := Option.map_eq_some'.mp h
            have hb := ih ls qs (es + g.length) gls' hrest
            refine ⟨?_, ?_, ?_⟩
            · simpa only [linesCount] using hb.1
            · simpa only [quadsCount] using hb.2.1
            · simp only [ellipsesCount]
              rcases hb.2.2 with h0 | hlt <;> omega
          · rw [if_neg hc] at h
            exact absurd h (by simp)

/-- C8: capacity violation is fatal.  The instance-range construction of
`Ui::render` panics (returns `none`) exactly when some kind's total
required element count does not fit in a `u32`; and under the precondition
that every kind's total fits, the construction succeeds and every layer's
recorded `[instance_start, instance_end)` range is valid (start at most
end, end representable in `u32`). -/
theorem capacity_violation_fatal (layers : List Layer) :
    (buildGpuLayers layers 0 0 0 = none ↔
      (U32Limit ≤ linesCount layers ∨ U32Limit ≤ quadsCount layers ∨
        U32Limit ≤ ellipsesCount layers)) ∧
    (linesCount layers < U32Limit → quadsCount layers < U32Limit →
      ellipsesCount layers < U32Limit →
      ∃ gls, buildGpuLayers layers 0 0 0 = some gls ∧
        ∀ gl ∈ gls, gl.instance_start ≤ gl.instance_end ∧ gl.instance_end < U32Limit) := by
  constructor
  · constructor
    · intro hnone
      by_contra hcon
      push_neg at hcon
      obtain ⟨h1, h2, h3⟩ := hcon
      obtain ⟨gls, hsome, _⟩ :=
        buildGpuLayers_fits layers 0 0 0 (by omega) (by omega) (by omega)
      rw [hsome] at hnone
      exact absurd hnone (by simp)
    · intro hor
      cases hbuild : buildGpuLayers layers 0 0 0 with
      | none => rfl
      | some gls =>
          have hb := buildGpuLayers_some_bounds layers 0 0 0 gls hbuild
          exfalso
          have hU : U32Limit = 4294967296 := rfl
          rcases hor with h | h | h
          · rcases hb.1 with h0 | hlt <;> omega
          · rcases hb.2.1 with h0 | hlt <;> omega
          · rcases hb.2.2 with h0 | hlt <;> omega
  · intro h1 h2 h3
    exact buildGpuLayers_fits layers 0 0 0 (by omega) (by omega) (by omega)

/-- Witness for C8: a one-layer frame fits in `u32`, so the construction
succeeds with valid ranges. -/
theorem capacity_violation_fatal_witness :
    ∃ gls, buildGpuLayers [Layer.Lines [glSample]] 0 0 0 = some gls ∧
      ∀ gl ∈ gls, gl.instance_start ≤ gl.instance_end ∧ gl.instance_end < U32Limit :=
  (capacity_violation_fatal [Layer.Lines [glSample]]).2 (by decide) (by decide) (by decide)
